import Mathlib

/-!
Verification development for the Yandex SpeechKit streaming STT plugin
(`livekit-plugins-yandex`).  The Python sources under
`src/livekit/plugins/yandex/` are shallowly embedded as executable Lean
definitions: pure helper functions become Lean functions, the streaming
request iterator becomes a pure function from the queued items to the list
of outbound requests, and exception control flow is made explicit through
an exception datatype.  Theorems then settle the specified properties
against these definitions.
-/

/-! ## Exceptions (`exceptions.py`) and gRPC status codes

`PyExc` models the Python exception values that the plugin raises or
observes.  Each `yandex*` constructor corresponds to one exception class of
`exceptions.py`; `grpcError` models a raw `grpc.RpcError` carrying a status
code and an optional details string; `notImplementedError` models the
`NotImplementedError` raised by `convert_audio_frame_to_pcm`; `retryError`
models `tenacity.RetryError` raised when the retry budget is exhausted. -/

inductive StatusCode
  | ok
  | cancelled
  | unknown
  | invalidArgument
  | deadlineExceeded
  | notFound
  | alreadyExists
  | permissionDenied
  | resourceExhausted
  | failedPrecondition
  | aborted
  | outOfRange
  | unimplemented
  | internal
  | unavailable
  | dataLoss
  | unauthenticated
  deriving DecidableEq

inductive PyExc
  | grpcError (code : StatusCode) (details : Option String)
  | yandexAuthenticationError
  | yandexNetworkError
  | yandexAPIError (retryable : Bool)
  | yandexTimeoutError
  | yandexAudioFormatError
  | yandexConfigurationError
  | notImplementedError
  | retryError
  deriving DecidableEq

/-- The `retryable` attribute each exception class of `exceptions.py` sets in
its constructor: `YandexAuthenticationError` is non-retryable,
`YandexNetworkError` and `YandexTimeoutError` are retryable,
`YandexAPIError` carries an explicit flag (defaulting to `true`),
`YandexAudioFormatError` and `YandexConfigurationError` are non-retryable.
Exceptions not derived from `YandexSTTError` have no such attribute; we
map them to `false`. -/
def PyExc.retryable : PyExc → Bool
  | .yandexAuthenticationError => false
  | .yandexNetworkError => true
  | .yandexAPIError r => r
  | .yandexTimeoutError => true
  | .yandexAudioFormatError => false
  | .yandexConfigurationError => false
  | _ => false

/-- Python truthiness of an optional string: `None` and `""` are falsy. -/
def optTruthy : Option String → Bool
  | none => false
  | some s => decide (s ≠ "")

/-- Whether `pat` is a leading segment of the character list. -/
def listStartsWith : List Char → List Char → Bool
  | [], _ => true
  | _ :: _, [] => false
  | p :: ps, c :: cs => p == c && listStartsWith ps cs

def pyStrContainsAux (pat : List Char) : List Char → Bool
  | [] => listStartsWith pat []
  | c :: rest => listStartsWith pat (c :: rest) || pyStrContainsAux pat rest

/-- Python substring containment `sub in s`: `sub` occurs somewhere in `s`
(an empty `sub` is contained in every string). -/
def pyStrContains (s sub : String) : Bool :=
  pyStrContainsAux sub.data s.data

/-- The `RST_STREAM` test of `SpeechStream._handle_grpc_error`
(`stt.py` line 397): Python evaluates `details and "RST_STREAM" in details`,
so `None` and the empty string short-circuit to falsy. -/
def isRstStreamReset : Option String → Bool
  | none => false
  | some d => decide (d ≠ "") && pyStrContains d "RST_STREAM"

/-- `SpeechStream._handle_grpc_error` (`stt.py` lines 375-401): classifies a
raw gRPC error into the plugin's exception taxonomy and raises the result. -/
def handle_grpc_error (code : StatusCode) (details : Option String) : PyExc :=
  if code = .unauthenticated then .yandexAuthenticationError
  else if code = .unavailable then .yandexNetworkError
  else if code = .deadlineExceeded then .yandexTimeoutError
  else if code = .resourceExhausted then .yandexAPIError true
  else if code = .invalidArgument then .yandexAPIError false
  else if code = .internal ∧ isRstStreamReset details = true then .yandexNetworkError
  else .yandexAPIError true

/-- Specification-side classification table, written from the claim's rows
(for the refinement theorem about `handle_grpc_error`): authentication
rejected → `AuthenticationError`; service unavailable / connection reset
(an internal status whose details report `RST_STREAM`) → `NetworkError`;
deadline exceeded → `TimeoutError`; malformed/invalid request →
non-retryable `APIError`; rate limited → retryable `APIError`; any other
backend-reported failure → `APIError` retryable by default. -/
def specErrorTable (code : StatusCode) (details : Option String) : PyExc :=
  if code = .unauthenticated then .yandexAuthenticationError
  else if code = .unavailable ∨ (code = .internal ∧ isRstStreamReset details = true) then
    .yandexNetworkError
  else if code = .deadlineExceeded then .yandexTimeoutError
  else if code = .invalidArgument then .yandexAPIError false
  else if code = .resourceExhausted then .yandexAPIError true
  else .yandexAPIError true

/-! ## Options (`stt.py`: `STTOptions`, `STT.__init__`, `STT._sanitize_options`) -/

structure STTOptions where
  model : String
  language : Option String
  detect_language : Bool
  interim_results : Bool
  profanity_filter : Bool
  sample_rate : Nat
  audio_encoding : String
  folder_id : String
  grpc_endpoint : String
  deriving DecidableEq

/-- The `STTOptions` value built at the end of `STT.__init__`
(`stt.py` lines 159-169): `language=language if not detect_language else None`. -/
def STT.makeOpts (model language : String) (detect_language interim_results profanity_filter : Bool)
    (sample_rate : Nat) (folder_id grpc_endpoint : String) : STTOptions :=
  { model := model
    language := if detect_language then none else some language
    detect_language := detect_language
    interim_results := interim_results
    profanity_filter := profanity_filter
    sample_rate := sample_rate
    audio_encoding := "LINEAR16_PCM"
    folder_id := folder_id
    grpc_endpoint := grpc_endpoint }

/-- `STT._sanitize_options` (`stt.py` lines 255-278).  The per-stream
`language` argument models `NotGivenOr`: `none` is `NOT_GIVEN`. -/
def sanitize_options (opts : STTOptions) (language : Option String) : STTOptions :=
  let config : STTOptions :=
    { model := opts.model
      language := opts.language
      detect_language := opts.detect_language
      interim_results := opts.interim_results
      profanity_filter := opts.profanity_filter
      sample_rate := opts.sample_rate
      audio_encoding := opts.audio_encoding
      folder_id := opts.folder_id
      grpc_endpoint := opts.grpc_endpoint }
  let config :=
    match language with
    | some l => { config with language := some l, detect_language := false }
    | none => config
  if config.detect_language then { config with language := none } else config

/-! ## Credentials and construction (`_utils.py`, `stt.py` lines 117-148) -/

structure YandexCredentials where
  api_key : Option String
  folder_id : Option String
  deriving DecidableEq

/-- Credential resolution in `STT.__init__` (`stt.py` lines 124-136):
if either explicit argument is truthy the arguments are used as-is,
otherwise both fields are read from the environment
(`YandexCredentials.from_env`, `_utils.py` lines 29-39). -/
def STT.resolveCredentials (api_key folder_id env_api_key env_folder_id : Option String) :
    YandexCredentials :=
  if optTruthy api_key || optTruthy folder_id then ⟨api_key, folder_id⟩
  else ⟨env_api_key, env_folder_id⟩

inductive InitOutcome
  | ok (creds : YandexCredentials)
  | raiseAudioFormatError
  | raiseConfigurationError
  | raiseAuthenticationError
  deriving DecidableEq

/-- The validating part of `STT.__init__` (`stt.py` lines 117-148): sample
rate must be one of 8000/16000/48000 (else `YandexAudioFormatError`); after
credential resolution a falsy `folder_id` raises `YandexConfigurationError`
and a falsy `api_key` raises `YandexAuthenticationError`.  (The
`try`/`except` around credential loading cannot fire: dataclass
construction and `from_env` do not raise.) -/
def STT.construct (sample_rate : Nat) (api_key folder_id env_api_key env_folder_id : Option String) :
    InitOutcome :=
  if sample_rate ≠ 8000 ∧ sample_rate ≠ 16000 ∧ sample_rate ≠ 48000 then
    .raiseAudioFormatError
  else
    let creds := STT.resolveCredentials api_key folder_id env_api_key env_folder_id
    if optTruthy creds.folder_id = false then .raiseConfigurationError
    else if optTruthy creds.api_key = false then .raiseAuthenticationError
    else .ok creds

/-! ## Audio frames and PCM conversion (`_utils.py` lines 42-66)

`AudioFrame` models `rtc.AudioFrame` restricted to what the plugin reads:
the sample rate and the raw sample buffer (`frame.data.tobytes()` is
modelled as the byte list itself). -/

structure AudioFrame where
  sample_rate : Nat
  data : List Nat
  deriving DecidableEq

/-- `convert_audio_frame_to_pcm` (`_utils.py` lines 42-66) applied to a real
`rtc.AudioFrame` (the `FlushSentinel` and missing-attribute early returns
cannot fire for one, and the request iterator only calls it after an
`isinstance(frame, rtc.AudioFrame)` check): raises `NotImplementedError`
whenever the frame's sample rate is not exactly 16000 Hz — the configured
session sample rate is never consulted — and otherwise returns the frame's
bytes. -/
def convert_audio_frame_to_pcm (frame : AudioFrame) : Except PyExc (List Nat) :=
  if frame.sample_rate ≠ 16000 then .error .notImplementedError
  else .ok frame.data

/-! ## Outbound requests (`yandex_api.py`, `stt.py` `_create_request_iterator`) -/

/-- The fields of `stt_pb2.StreamingOptions` that
`create_streaming_options` (`yandex_api.py` lines 18-68) populates. -/
structure StreamingOptions where
  audio_encoding : String
  sample_rate_hertz : Nat
  audio_channel_count : Nat
  profanity_filter : Bool
  literature_text : Bool
  language_whitelist : Option String
  deriving DecidableEq

/-- `create_streaming_options` (`yandex_api.py` lines 18-68).  Both branches
of the encoding test assign `LINEAR16_PCM`; a language restriction
(whitelist of the single language) is attached only when `language` is
truthy and `detect_language` is false.  The `model` and `interim_results`
arguments are accepted but unused by the source function. -/
def create_streaming_options (language : Option String) ( _model : String)
    (detect_language _interim_results profanity_filter : Bool)
    (sample_rate : Nat) (_audio_encoding : String) : StreamingOptions :=
  { audio_encoding := "LINEAR16_PCM"
    sample_rate_hertz := sample_rate
    audio_channel_count := 1
    profanity_filter := profanity_filter
    literature_text := false
    language_whitelist :=
      if optTruthy language = true ∧ detect_language = false then language else none }

inductive StreamingRequest
  | sessionOptions (opts : StreamingOptions)
  | chunk (data : List Nat)
  deriving DecidableEq

/-- `create_session_request` (`yandex_api.py` lines 71-73). -/
def create_session_request (opts : StreamingOptions) : StreamingRequest :=
  .sessionOptions opts

/-- `create_audio_chunk` (`yandex_api.py` lines 76-79). -/
def create_audio_chunk (data : List Nat) : StreamingRequest :=
  .chunk data

/-- An element of the stream's input queue: a real audio frame or the
framework's `FlushSentinel` end-of-segment marker (detected by class name in
`stt.py` line 513).  The `None` terminator and channel closure are modelled
by the end of the queue list. -/
inductive QueueItem
  | frame (f : AudioFrame)
  | flushSentinel
  deriving DecidableEq

def QueueItem.isFlush : QueueItem → Bool
  | .flushSentinel => true
  | .frame _ => false

/-- The frame-processing loop of `SpeechStream._create_request_iterator`
(`stt.py` lines 502-568): stop at a flush sentinel (or end of input);
convert each audio frame, catching any conversion exception and continuing
with the remaining frames; yield a chunk only for truthy (non-empty)
converted data. -/
def processFrames : List QueueItem → List StreamingRequest
  | [] => []
  | .flushSentinel :: _ => []
  | .frame f :: rest =>
    match convert_audio_frame_to_pcm f with
    | .error _ => processFrames rest
    | .ok audio_data =>
      if audio_data = [] then processFrames rest
      else create_audio_chunk audio_data :: processFrames rest

/-- `SpeechStream._create_request_iterator` (`stt.py` lines 495-574) for one
connection attempt, as the list of requests it yields: the session-options
request first (`stt.py` line 498), then the processed frames. -/
def create_request_iterator (streaming_opts : StreamingOptions) (queue : List QueueItem) :
    List StreamingRequest :=
  create_session_request streaming_opts :: processFrames queue

def StreamingRequest.isSessionOptions : StreamingRequest → Bool
  | .sessionOptions _ => true
  | .chunk _ => false

/-- Number of session-configuration messages in a request list. -/
def countConfig (l : List StreamingRequest) : Nat :=
  (l.filter StreamingRequest.isSessionOptions).length

/-- Specification-side description of the outbound chunk sequence, written
from the spec's words for the refinement claim about the request iterator:
one chunk per non-empty successfully adapted frame pushed before the first
flush marker, in push order. -/
def specOutboundChunks (queue : List QueueItem) : List StreamingRequest :=
  (queue.takeWhile (fun i => !i.isFlush)).filterMap (fun i =>
    match i with
    | .flushSentinel => none
    | .frame f =>
      match convert_audio_frame_to_pcm f with
      | .error _ => none
      | .ok d => if d = [] then none else some (StreamingRequest.chunk d))

/-! ## Inbound responses (`yandex_api.py` `parse_streaming_response`,
`stt.py` `SpeechStream._process_response`) -/

/-- One recognition alternative of a backend response.  `confidence` and the
millisecond offsets are optional: `getattr(alt, "confidence", 0.0)` and
`getattr(alt, "start_time_ms", 0)` default them when the backend leaves
them unpopulated. -/
structure SttAlternative where
  text : String
  confidence : Option Rat
  start_time_ms : Option Int
  end_time_ms : Option Int
  deriving DecidableEq

/-- The `Event` oneof of `stt_pb2.StreamingResponse`.  `interim` models the
proto field named `partial` (that word is a Lean keyword). -/
inductive ResponseEvent
  | interim (alternatives : List SttAlternative)
  | final (alternatives : List SttAlternative)
  | finalRefinement (alternatives : List SttAlternative)
  | eouUpdate
  | statusCode (code : Int)
  | classifierUpdate
  | speakerAnalysis
  | conversationAnalysis
  | summarization
  deriving DecidableEq

/-- `response.WhichOneof("Event")`: the proto field name of the populated
variant. -/
def ResponseEvent.whichOneof : ResponseEvent → Option String
  | .interim _ => some "partial"
  | .final _ => some "final"
  | .finalRefinement _ => some "final_refinement"
  | .eouUpdate => some "eou_update"
  | .statusCode _ => some "status_code"
  | .classifierUpdate => some "classifier_update"
  | .speakerAnalysis => some "speaker_analysis"
  | .conversationAnalysis => some "conversation_analysis"
  | .summarization => some "summarization"

/-- The dictionary `parse_streaming_response` returns
(`yandex_api.py` lines 106-158). -/
structure ParsedResponse where
  event_type : Option String
  alternatives : List String
  is_final : Bool
  confidence : Rat
  start_time : Rat
  end_time : Rat
  status_code : Option Int
  deriving DecidableEq

/-- `parse_streaming_response` (`yandex_api.py` lines 106-158).  For the
`partial` variant the alternatives are extracted only when non-empty; for
`final` they are extracted unconditionally and the first alternative's
confidence and offsets (milliseconds divided by 1000.0) are taken when one
exists; `final_refinement` contributes its normalized alternatives;
`eou_update` leaves the defaults; `status_code` records the code; any other
variant leaves the defaults untouched. -/
def parse_streaming_response (r : ResponseEvent) : ParsedResponse :=
  let result : ParsedResponse :=
    { event_type := r.whichOneof
      alternatives := []
      is_final := false
      confidence := 0
      start_time := 0
      end_time := 0
      status_code := none }
  match r with
  | .interim alts =>
    if alts.length > 0 then
      match alts with
      | [] => result
      | alt :: _ =>
        { result with
          alternatives := alts.map (fun a => a.text)
          is_final := false
          confidence := alt.confidence.getD 0
          start_time := ((alt.start_time_ms.getD 0 : Int) : Rat) / 1000
          end_time := ((alt.end_time_ms.getD 0 : Int) : Rat) / 1000 }
    else result
  | .final alts =>
    let result := { result with alternatives := alts.map (fun a => a.text), is_final := true }
    match alts with
    | [] => result
    | alt :: _ =>
      { result with
        confidence := alt.confidence.getD 0
        start_time := ((alt.start_time_ms.getD 0 : Int) : Rat) / 1000
        end_time := ((alt.end_time_ms.getD 0 : Int) : Rat) / 1000 }
  | .finalRefinement alts =>
    { result with alternatives := alts.map (fun a => a.text), is_final := true }
  | .eouUpdate => result
  | .statusCode c => { result with status_code := some c }
  | _ => result

/-! ## Emitted speech events (`stt.py` `SpeechStream._process_response`) -/

inductive SpeechEventType
  | interimTranscript
  | finalTranscript
  | endOfSpeech
  deriving DecidableEq

structure SpeechData where
  text : String
  language : String
  start_time : Rat
  end_time : Rat
  confidence : Rat
  deriving DecidableEq

structure SpeechEvent where
  type : SpeechEventType
  alternatives : List SpeechData
  deriving DecidableEq

/-- Python `not text.strip()`: true exactly when the text strips to the
empty string, i.e. when every character is whitespace (or the text is
empty). -/
def pyStripEmpty (s : String) : Bool :=
  s.data.all (fun c => c.isWhitespace)

/-- Python `self._opts.language or "ru-RU"`: falsy (`None` or empty)
language falls back to the literal `"ru-RU"`. -/
def pyOrLanguage : Option String → String
  | none => "ru-RU"
  | some s => if s = "" then "ru-RU" else s

/-- `SpeechStream._process_response` (`stt.py` lines 576-671), as the list
of events it pushes onto the output channel.  Interim results are emitted
for a `"partial"` parse with non-empty alternatives; final results for a
`"final"` parse with non-empty alternatives, skipping texts that strip to
empty; the `"end_of_utterance"` branch of the source is compared against an
event type the parser never produces (it produces `"eou_update"`); any
other parse emits nothing. -/
def process_response (opts : STTOptions) (r : ResponseEvent) : List SpeechEvent :=
  let parsed := parse_streaming_response r
  if parsed.event_type = some "partial" ∧ parsed.alternatives ≠ [] then
    parsed.alternatives.map (fun text =>
      { type := SpeechEventType.interimTranscript
        alternatives := [{ text := text
                           language := pyOrLanguage opts.language
                           start_time := parsed.start_time
                           end_time := parsed.end_time
                           confidence := parsed.confidence }] })
  else if parsed.event_type = some "final" ∧ parsed.alternatives ≠ [] then
    (parsed.alternatives.filter (fun text => !pyStripEmpty text)).map (fun text =>
      { type := SpeechEventType.finalTranscript
        alternatives := [{ text := text
                           language := pyOrLanguage opts.language
                           start_time := parsed.start_time
                           end_time := parsed.end_time
                           confidence := parsed.confidence }] })
  else if parsed.event_type = some "end_of_utterance" then
    [{ type := SpeechEventType.endOfSpeech, alternatives := [] }]
  else []

/-! ## Close protocol (`stt.py` `SpeechStream.aclose`, lines 673-695) -/

/-- The fields of `SpeechStream` that `aclose` touches: the `_closed` flag
and whether a stream call and a gRPC channel object exist. -/
structure StreamState where
  closed : Bool
  stream_call : Bool
  grpc_channel : Bool
  deriving DecidableEq

inductive CloseOp
  | cancelStreamCall
  | closeGrpcChannel
  | baseClose
  deriving DecidableEq

/-- `SpeechStream.aclose` (`stt.py` lines 673-695): returns immediately when
already closed; otherwise sets `_closed`, cancels the stream call and
closes the channel when present (exceptions there are caught and logged),
then awaits the base-class `aclose`.  Returns the new state and the
resource operations performed. -/
def aclose (s : StreamState) : StreamState × List CloseOp :=
  if s.closed then (s, [])
  else
    ({ s with closed := true },
      (if s.stream_call then [CloseOp.cancelStreamCall] else []) ++
        (if s.grpc_channel then [CloseOp.closeGrpcChannel] else []) ++
        [CloseOp.baseClose])

/-! ## Retry wrapper (`stt.py` lines 403-451) and main-task classification -/

/-- `retry_if_exception_type((YandexNetworkError, YandexTimeoutError))`:
the tenacity predicate deciding whether a raised exception triggers a
retry.  It tests the Python exception type only. -/
def retryIfExceptionType : PyExc → Bool
  | .yandexNetworkError => true
  | .yandexTimeoutError => true
  | _ => false

/-- `wait_exponential(multiplier=1, min=1, max=10)`: the backoff before a
retry, clamped between the configured bounds. -/
def wait_exponential (multiplier mn mx : Rat) (attempt_number : Nat) : Rat :=
  max mn (min mx (multiplier * 2 ^ attempt_number))

/-- The tenacity retry loop with `stop_after_attempt` semantics and the
default `reraise=False`: attempt `k` runs `outcome k`; success stops; a
failure whose exception matches the retry predicate is retried while
attempts remain, and exhausting the attempt budget raises
`tenacity.RetryError`; any other exception is re-raised at once.  Returns
the final outcome (`none` = success) and the number of attempts made. -/
def runRetryGo (outcome : Nat → Option PyExc) : Nat → Nat → Option PyExc × Nat
  | k, 0 => (some .retryError, k - 1)
  | k, fuel + 1 =>
    match outcome k with
    | none => (none, k)
    | some e =>
      if retryIfExceptionType e then runRetryGo outcome (k + 1) fuel
      else (some e, k)

/-- `SpeechStream._start_streaming_session_with_retry` (`stt.py` lines
403-421): the streaming attempt under
`@retry(stop=stop_after_attempt(3), wait=wait_exponential(multiplier=1, min=1, max=10),
retry=retry_if_exception_type((YandexNetworkError, YandexTimeoutError)))`.
`outcome k` is the exception (if any) the `k`-th call of
`_start_streaming_session` raises. -/
def start_streaming_session_with_retry (outcome : Nat → Option PyExc) : Option PyExc × Nat :=
  runRetryGo outcome 1 3

/-- The exception handling of `SpeechStream._main_task` (`stt.py` lines
332-341): a raw `grpc.RpcError` is classified by `_handle_grpc_error`;
every other exception is wrapped into `YandexAPIError("Streaming session
failed: ...")`, whose `retryable` flag defaults to `true`. -/
def mainTaskClassify : PyExc → PyExc
  | .grpcError code details => handle_grpc_error code details
  | _ => .yandexAPIError true

/-- The `finally` block of `_start_streaming_session` (`stt.py` lines
485-493): once a streaming attempt ends, the stream is marked closed. -/
def start_streaming_session_finally (s : StreamState) : StreamState :=
  if s.closed then s else { s with closed := true }

/-! ## Concrete values used by witnesses and counterexamples -/

/-- A default-configuration options value (Russian, 16 kHz). -/
def demoOpts : STTOptions :=
  STT.makeOpts "general" "ru-RU" false true false 16000 "folder" "stt.api.cloud.yandex.net:443"

/-- An English-configured options value. -/
def demoOptsEn : STTOptions :=
  STT.makeOpts "general" "en-US" false true false 16000 "folder" "stt.api.cloud.yandex.net:443"

/-- Streaming options for the default configuration. -/
def demoStreamingOpts : StreamingOptions :=
  create_streaming_options (some "ru-RU") "general" false true false 16000 "LINEAR16_PCM"

/-! ## Helper lemmas -/

/-- The frame-processing loop produces exactly the chunks described by the
specification-side `specOutboundChunks`. -/
theorem processFrames_eq_specOutboundChunks (queue : List QueueItem) :
    processFrames queue = specOutboundChunks queue := by
  induction queue with
  | nil => rfl
  | cons i rest ih =>
    cases i with
    | flushSentinel =>
      simp [processFrames, specOutboundChunks, List.takeWhile_cons, QueueItem.isFlush]
    | frame f =>
      cases h : convert_audio_frame_to_pcm f with
      | error e =>
        simpa [processFrames, specOutboundChunks, List.takeWhile_cons, QueueItem.isFlush,
          List.filterMap_cons, h] using ih
      | ok d =>
        by_cases hd : d = []
        · simpa [processFrames, specOutboundChunks, List.takeWhile_cons, QueueItem.isFlush,
            List.filterMap_cons, h, hd] using ih
        · simp [processFrames, specOutboundChunks, List.takeWhile_cons, QueueItem.isFlush,
            List.filterMap_cons, h, hd, create_audio_chunk, ih]

/-- Every message of the chunk stream is a non-empty audio chunk. -/
theorem specOutboundChunks_mem (queue : List QueueItem) (req : StreamingRequest)
    (h : req ∈ specOutboundChunks queue) :
    ∃ data, req = StreamingRequest.chunk data ∧ data ≠ [] := by
  unfold specOutboundChunks at h
  rcases List.mem_filterMap.mp h with ⟨i, -, hi⟩
  cases i with
  | flushSentinel => simp at hi
  | frame f =>
    dsimp only at hi
    cases hc : convert_audio_frame_to_pcm f with
    | error e => rw [hc] at hi; simp at hi
    | ok d =>
      rw [hc] at hi
      dsimp only at hi
      by_cases hd : d = []
      · simp [hd] at hi
      · simp only [if_neg hd, Option.some.injEq] at hi
        exact ⟨d, hi.symm, hd⟩

/-- One connection attempt sends exactly one session-configuration message. -/
theorem countConfig_create_request_iterator (streaming_opts : StreamingOptions)
    (queue : List QueueItem) :
    countConfig (create_request_iterator streaming_opts queue) = 1 := by
  have hnil : List.filter StreamingRequest.isSessionOptions (processFrames queue) = [] := by
    rw [List.filter_eq_nil_iff]
    intro a ha
    rw [processFrames_eq_specOutboundChunks] at ha
    rcases specOutboundChunks_mem queue a ha with ⟨data, rfl, -⟩
    simp [StreamingRequest.isSessionOptions]
  simp [countConfig, create_request_iterator, create_session_request, List.filter_cons, hnil,
    StreamingRequest.isSessionOptions]

/-- Every speech datum emitted by `process_response` carries the language
`opts.language or "ru-RU"`. -/
theorem language_of_emitted (opts : STTOptions) (r : ResponseEvent) (e : SpeechEvent)
    (d : SpeechData) (he : e ∈ process_response opts r) (hd : d ∈ e.alternatives) :
    d.language = pyOrLanguage opts.language := by
  simp only [process_response] at he
  split at he
  · rcases List.mem_map.mp he with ⟨text, -, rfl⟩
    simp only [List.mem_singleton] at hd
    rw [hd]
  · split at he
    · rcases List.mem_map.mp he with ⟨text, -, rfl⟩
      simp only [List.mem_singleton] at hd
      rw [hd]
    · split at he
      · simp only [List.mem_singleton] at he
        rw [he] at hd
        simp at hd
      · simp at he

/-! ## Claim theorems -/

/-- Claim C1, counterexample.  The claim states that a frame whose sample
rate equals the configured rate is adapted and sent for any allowed rate
(8000/48000 included), and that a first mismatched frame closes the session
with `AudioFormatError`.  On the code: with the session configured at
8000 Hz a matching 8000 Hz frame is dropped (the converter raises
`NotImplementedError` for any rate other than 16000 Hz) and no chunk is
sent; and a first mismatched frame does not end the session — later frames
are still adapted and sent. -/
theorem yandex_C1_counterexample :
    create_request_iterator
        (create_streaming_options (some "ru-RU") "general" false true false 8000 "LINEAR16_PCM")
        [QueueItem.frame ⟨8000, [1, 2]⟩] =
      [StreamingRequest.sessionOptions
        (create_streaming_options (some "ru-RU") "general" false true false 8000 "LINEAR16_PCM")] ∧
    convert_audio_frame_to_pcm ⟨8000, [1, 2]⟩ = Except.error PyExc.notImplementedError ∧
    processFrames [QueueItem.frame ⟨8000, [1]⟩, QueueItem.frame ⟨16000, [5]⟩] =
      [StreamingRequest.chunk [5]] := by
  exact ⟨rfl, rfl, rfl⟩

/-- Claim C1 as amended: a frame whose sample rate is not exactly 16000 Hz
(the configured rate is never consulted) makes the converter raise
`NotImplementedError`; the request iterator catches the exception, drops
the frame — no chunk is sent for it — and continues with the remaining
frames regardless of the frame's position; no session closure and no
`AudioFormatError` results.  A 16000 Hz frame with non-empty data is
adapted to its PCM bytes and sent as a chunk. -/
theorem yandex_C1_amended (f : AudioFrame) (rest : List QueueItem) :
    (f.sample_rate ≠ 16000 →
      convert_audio_frame_to_pcm f = Except.error PyExc.notImplementedError ∧
      processFrames (QueueItem.frame f :: rest) = processFrames rest) ∧
    (f.sample_rate = 16000 → f.data ≠ [] →
      processFrames (QueueItem.frame f :: rest) =
        StreamingRequest.chunk f.data :: processFrames rest) := by
  constructor
  · intro h
    have hc : convert_audio_frame_to_pcm f = Except.error PyExc.notImplementedError := by
      simp [convert_audio_frame_to_pcm, h]
    exact ⟨hc, by simp [processFrames, hc]⟩
  · intro h hd
    have hc : convert_audio_frame_to_pcm f = Except.ok f.data := by
      simp [convert_audio_frame_to_pcm, h]
    simp [processFrames, hc, hd, create_audio_chunk]

/-- Witness for the amended claim C1 at concrete frames. -/
theorem yandex_C1_amended_witness :
    processFrames [QueueItem.frame ⟨8000, [1]⟩] = [] ∧
    processFrames [QueueItem.frame ⟨16000, [2]⟩] = [StreamingRequest.chunk [2]] := by
  have h1 := (yandex_C1_amended ⟨8000, [1]⟩ []).1 (by decide)
  have h2 := (yandex_C1_amended ⟨16000, [2]⟩ []).2 rfl (by decide)
  exact ⟨by simpa [processFrames] using h1.2, by simpa [processFrames] using h2⟩

/-- Claim C2: for one connection attempt over the frames pushed before a
flush, the outbound request sequence is exactly one session-configuration
message, strictly before any chunk, followed by one chunk per non-empty
successfully adapted frame in push order; a zero-length chunk is never
sent. -/
theorem yandex_C2 (streaming_opts : StreamingOptions) (queue : List QueueItem) :
    create_request_iterator streaming_opts queue =
      create_session_request streaming_opts :: specOutboundChunks queue ∧
    countConfig (create_request_iterator streaming_opts queue) = 1 ∧
    ∀ req ∈ specOutboundChunks queue,
      ∃ data, req = StreamingRequest.chunk data ∧ data ≠ [] := by
  refine ⟨?_, countConfig_create_request_iterator streaming_opts queue, ?_⟩
  · unfold create_request_iterator
    rw [processFrames_eq_specOutboundChunks]
  · intro req h
    exact specOutboundChunks_mem queue req h

/-- Witness for claim C2 at a concrete queue. -/
theorem yandex_C2_witness :
    create_request_iterator demoStreamingOpts [QueueItem.frame ⟨16000, [7]⟩] =
      create_session_request demoStreamingOpts ::
        specOutboundChunks [QueueItem.frame ⟨16000, [7]⟩] ∧
    (∃ data, StreamingRequest.chunk [7] = StreamingRequest.chunk data ∧ data ≠ []) := by
  have h := yandex_C2 demoStreamingOpts [QueueItem.frame ⟨16000, [7]⟩]
  exact ⟨h.1, h.2.2 (StreamingRequest.chunk [7]) (by decide)⟩

/-- Claim C3 (code bug): the parser labels an end-of-utterance response
`"eou_update"`, but `_process_response` compares the label against
`"end_of_utterance"`, so the `END_OF_SPEECH` branch is dead and an
end-of-utterance response emits nothing; a status-code response likewise
emits nothing (no branch consumes it).  The suppression half of the claim
does hold: a whitespace-only final emits nothing while a non-empty final
emits one event. -/
theorem yandex_C3_code_bug_eval :
    (parse_streaming_response ResponseEvent.eouUpdate).event_type = some "eou_update" ∧
    process_response demoOpts ResponseEvent.eouUpdate = [] ∧
    process_response demoOpts (ResponseEvent.statusCode 5) = [] ∧
    process_response demoOpts (ResponseEvent.final [⟨"   ", some 1, some 0, some 100⟩]) = [] ∧
    (process_response demoOpts (ResponseEvent.final [⟨"hello", some 1, some 0, some 100⟩])).length
      = 1 := by
  exact ⟨rfl, rfl, rfl, rfl, rfl⟩

/-- Claim C4: for every transport failure (every status code and details
value), `_handle_grpc_error` classifies exactly per the specified table —
proved as equality with the specification-side `specErrorTable` on all
inputs — and each row carries the claimed `retryable` flag:
authentication rejected is non-retryable `AuthenticationError`; service
unavailable and `RST_STREAM` connection reset are retryable
`NetworkError`; deadline exceeded is retryable `TimeoutError`; invalid
request is non-retryable `APIError`; rate limiting is retryable
`APIError`; an internal status without `RST_STREAM`, like every other
unlisted status, falls into the catch-all row: `APIError` with
`retryable=true`. -/
theorem yandex_C4 (code : StatusCode) (details : Option String) :
    handle_grpc_error code details = specErrorTable code details ∧
    PyExc.retryable (specErrorTable .unauthenticated details) = false ∧
    PyExc.retryable (specErrorTable .unavailable details) = true ∧
    (isRstStreamReset details = true →
      specErrorTable .internal details = PyExc.yandexNetworkError ∧
      PyExc.retryable (specErrorTable .internal details) = true) ∧
    (isRstStreamReset details = false →
      specErrorTable .internal details = PyExc.yandexAPIError true ∧
      PyExc.retryable (specErrorTable .internal details) = true) ∧
    PyExc.retryable (specErrorTable .deadlineExceeded details) = true ∧
    PyExc.retryable (specErrorTable .invalidArgument details) = false ∧
    PyExc.retryable (specErrorTable .resourceExhausted details) = true ∧
    (code ∉ ([.unauthenticated, .unavailable, .deadlineExceeded,
        .resourceExhausted, .invalidArgument, .internal] : List StatusCode) →
      specErrorTable code details = PyExc.yandexAPIError true ∧
      PyExc.retryable (specErrorTable code details) = true) := by
  refine ⟨?_, ?_, ?_, ?_, ?_, ?_, ?_, ?_, ?_⟩
  · by_cases h : isRstStreamReset details = true <;>
      cases code <;> simp [handle_grpc_error, specErrorTable, h]
  · simp [specErrorTable, PyExc.retryable]
  · simp [specErrorTable, PyExc.retryable]
  · intro h
    simp [specErrorTable, h, PyExc.retryable]
  · intro h
    simp [specErrorTable, h, PyExc.retryable]
  · simp [specErrorTable, PyExc.retryable]
  · simp [specErrorTable, PyExc.retryable]
  · simp [specErrorTable, PyExc.retryable]
  · intro h
    cases code <;> simp_all [specErrorTable, PyExc.retryable]

/-- Witness for claim C4: the code's classifier and the table agree on an
internal status with `RST_STREAM` details (retryable `NetworkError`), on
an internal status without them (retryable `APIError`), and on an unlisted
status (retryable `APIError`). -/
theorem yandex_C4_witness :
    handle_grpc_error .internal (some "goaway RST_STREAM received") =
      specErrorTable .internal (some "goaway RST_STREAM received") ∧
    specErrorTable .internal (some "goaway RST_STREAM received") =
      PyExc.yandexNetworkError ∧
    handle_grpc_error .internal (some "internal error") =
      specErrorTable .internal (some "internal error") ∧
    specErrorTable .internal (some "internal error") = PyExc.yandexAPIError true ∧
    handle_grpc_error .notFound none = specErrorTable .notFound none ∧
    specErrorTable .notFound none = PyExc.yandexAPIError true := by
  have h1 := yandex_C4 .internal (some "goaway RST_STREAM received")
  have h2 := yandex_C4 .internal (some "internal error")
  have h3 := yandex_C4 .notFound none
  exact ⟨h1.1, (h1.2.2.2.1 (by decide)).1, h2.1, (h2.2.2.2.2.1 (by decide)).1, h3.1,
    (h3.2.2.2.2.2.2.2.2 (by decide)).1⟩

/-- Claim C5, counterexample.  A service-unavailable transport failure is
classified as a retryable `NetworkError`, yet the streaming attempt is not
retried: the attempt raises the raw gRPC error, which the tenacity
predicate (matching only `YandexNetworkError`/`YandexTimeoutError` by
type) does not retry, so exactly one attempt is made.  A rate-limited
retryable `APIError` likewise never matches the retry predicate. -/
theorem yandex_C5_counterexample :
    handle_grpc_error .unavailable (some "service unavailable") = PyExc.yandexNetworkError ∧
    PyExc.retryable (handle_grpc_error .unavailable (some "service unavailable")) = true ∧
    start_streaming_session_with_retry
        (fun _ => some (PyExc.grpcError .unavailable (some "service unavailable"))) =
      (some (PyExc.grpcError .unavailable (some "service unavailable")), 1) ∧
    retryIfExceptionType (PyExc.yandexAPIError true) = false := by
  exact ⟨rfl, rfl, rfl, rfl⟩

/-- Claim C5 as amended: the retry wrapper is configured with a budget of 3
attempts and exponential backoff clamped to [1, 10] seconds, and retries
only exceptions of type `YandexNetworkError`/`YandexTimeoutError` — if
every attempt raised such an exception, the budget would stop it after 3
attempts with `tenacity.RetryError`.  But a streaming attempt surfaces
transport failures as raw gRPC errors, so it is never retried: the failure
propagates after exactly one attempt and is classified only afterwards in
the main task; each connection attempt sends exactly one configuration
message, and a finished attempt leaves the stream marked closed. -/
theorem yandex_C5_amended (outcome outcome2 : Nat → Option PyExc) (c : StatusCode)
    (ds : Option String) (e : PyExc) (n : Nat) (streaming_opts : StreamingOptions)
    (queue : List QueueItem) (s : StreamState)
    (hg : outcome 1 = some (PyExc.grpcError c ds))
    (hr : retryIfExceptionType e = true)
    (he : ∀ k, outcome2 k = some e) :
    start_streaming_session_with_retry outcome = (some (PyExc.grpcError c ds), 1) ∧
    mainTaskClassify (PyExc.grpcError c ds) = handle_grpc_error c ds ∧
    start_streaming_session_with_retry outcome2 = (some PyExc.retryError, 3) ∧
    (1 ≤ wait_exponential 1 1 10 n ∧ wait_exponential 1 1 10 n ≤ 10) ∧
    countConfig (create_request_iterator streaming_opts queue) = 1 ∧
    (start_streaming_session_finally s).closed = true := by
  refine ⟨?_, rfl, ?_, ⟨?_, ?_⟩, countConfig_create_request_iterator streaming_opts queue, ?_⟩
  · simp [start_streaming_session_with_retry, runRetryGo, hg, retryIfExceptionType]
  · simp [start_streaming_session_with_retry, runRetryGo, he 1, he 2, he 3, hr]
  · exact le_max_left 1 _
  · exact max_le (by norm_num) (min_le_left 10 _)
  · by_cases hcl : s.closed <;> simp [start_streaming_session_finally, hcl]

/-- Witness for the amended claim C5: a persistently unavailable transport
gives up after one attempt, while a (hypothetical) persistent
`YandexNetworkError` would exhaust the 3-attempt budget. -/
theorem yandex_C5_amended_witness :
    start_streaming_session_with_retry
        (fun _ => some (PyExc.grpcError .unavailable none)) =
      (some (PyExc.grpcError .unavailable none), 1) ∧
    start_streaming_session_with_retry (fun _ => some PyExc.yandexNetworkError) =
      (some PyExc.retryError, 3) := by
  have h := yandex_C5_amended (fun _ => some (PyExc.grpcError .unavailable none))
      (fun _ => some PyExc.yandexNetworkError) .unavailable none PyExc.yandexNetworkError 0
      demoStreamingOpts [] ⟨false, false, false⟩ rfl rfl (fun k => rfl)
  exact ⟨h.1, h.2.2.1⟩

/-- Claim C6: for every constructible configuration and per-stream language
override, the sanitized options never have both a language and the
detect-language flag set; an override clears detect-language, and
detect-language clears the language. -/
theorem yandex_C6 (model language : String) (dl ir pf : Bool) (sr : Nat)
    (fid ep : String) (override : Option String) :
    ((sanitize_options (STT.makeOpts model language dl ir pf sr fid ep) override).language =
        none ∨
      (sanitize_options (STT.makeOpts model language dl ir pf sr fid ep) override).detect_language
        = false) ∧
    (∀ l, override = some l →
      (sanitize_options (STT.makeOpts model language dl ir pf sr fid ep) override).detect_language
          = false ∧
        (sanitize_options (STT.makeOpts model language dl ir pf sr fid ep) override).language =
          some l) ∧
    ((sanitize_options (STT.makeOpts model language dl ir pf sr fid ep) override).detect_language
        = true →
      (sanitize_options (STT.makeOpts model language dl ir pf sr fid ep) override).language =
        none) := by
  cases override <;> cases dl <;> simp [sanitize_options, STT.makeOpts]

/-- Witness for claim C6 at a concrete configuration. -/
theorem yandex_C6_witness :
    (sanitize_options (STT.makeOpts "general" "ru-RU" true true false 16000 "fid" "ep")
        (some "en-US")).detect_language = false ∧
    (sanitize_options (STT.makeOpts "general" "ru-RU" true true false 16000 "fid" "ep")
        (some "en-US")).language = some "en-US" ∧
    (sanitize_options (STT.makeOpts "general" "ru-RU" true true false 16000 "fid" "ep")
        none).language = none := by
  have h1 := (yandex_C6 "general" "ru-RU" true true false 16000 "fid" "ep"
      (some "en-US")).2.1 "en-US" rfl
  have h2 := (yandex_C6 "general" "ru-RU" true true false 16000 "fid" "ep" none).2.2 rfl
  exact ⟨h1.1, h1.2, h2⟩

/-- Claim C7, counterexample.  With a missing API key and a present folder
id, construction fails with `YandexAuthenticationError`, not the
`ConfigurationError` the claim asserts. -/
theorem yandex_C7_counterexample :
    STT.construct 16000 none (some "folder") none none = InitOutcome.raiseAuthenticationError ∧
    InitOutcome.raiseAuthenticationError ≠ InitOutcome.raiseConfigurationError := by
  exact ⟨rfl, by decide⟩

/-- Claim C7 as amended: after argument/environment resolution, a missing
(falsy) folder id fails construction with `ConfigurationError`, while a
present folder id with a missing API key fails with
`AuthenticationError`; in either case no session object is produced. -/
theorem yandex_C7_amended (sr : Nat) (ak fid eak efid : Option String)
    (hsr : sr = 8000 ∨ sr = 16000 ∨ sr = 48000) :
    (optTruthy (STT.resolveCredentials ak fid eak efid).folder_id = false →
      STT.construct sr ak fid eak efid = InitOutcome.raiseConfigurationError) ∧
    (optTruthy (STT.resolveCredentials ak fid eak efid).folder_id = true →
      optTruthy (STT.resolveCredentials ak fid eak efid).api_key = false →
      STT.construct sr ak fid eak efid = InitOutcome.raiseAuthenticationError) ∧
    ((optTruthy (STT.resolveCredentials ak fid eak efid).folder_id = false ∨
        optTruthy (STT.resolveCredentials ak fid eak efid).api_key = false) →
      ∀ creds, STT.construct sr ak fid eak efid ≠ InitOutcome.ok creds) := by
  have hcond : ¬(sr ≠ 8000 ∧ sr ≠ 16000 ∧ sr ≠ 48000) := by
    rcases hsr with h | h | h <;> simp [h]
  refine ⟨?_, ?_, ?_⟩
  · intro hf
    simp [STT.construct, if_neg hcond, hf]
  · intro hf ha
    simp [STT.construct, if_neg hcond, hf, ha]
  · rintro (hf | ha) creds
    · simp [STT.construct, if_neg hcond, hf]
    · by_cases hf2 : optTruthy (STT.resolveCredentials ak fid eak efid).folder_id = true
      · simp [STT.construct, if_neg hcond, hf2, ha]
      · simp at hf2
        simp [STT.construct, if_neg hcond, hf2]

/-- Witness for the amended claim C7 at concrete credential inputs. -/
theorem yandex_C7_amended_witness :
    STT.construct 16000 none none none none = InitOutcome.raiseConfigurationError ∧
    STT.construct 16000 (some "") (some "folder") none none =
      InitOutcome.raiseAuthenticationError ∧
    (∀ creds, STT.construct 16000 none none none none ≠ InitOutcome.ok creds) := by
  have h1 := yandex_C7_amended 16000 none none none none (Or.inr (Or.inl rfl))
  have h2 := yandex_C7_amended 16000 (some "") (some "folder") none none (Or.inr (Or.inl rfl))
  exact ⟨h1.1 rfl, h2.2.1 rfl rfl, h1.2.2 (Or.inl rfl)⟩

/-- Claim C8: the decoder extracts the first-ranked alternative's text,
confidence, and start/end offsets in seconds (milliseconds divided by
1000), defaulting confidence and both offsets to 0 when the backend leaves
them unpopulated; an unrecognized response variant decodes to a no-op that
emits nothing. -/
theorem yandex_C8 (a : SttAlternative) (rest : List SttAlternative) (opts : STTOptions) :
    ((parse_streaming_response (ResponseEvent.interim (a :: rest))).alternatives =
        (a :: rest).map (fun x => x.text) ∧
      (parse_streaming_response (ResponseEvent.interim (a :: rest))).confidence =
        a.confidence.getD 0 ∧
      (parse_streaming_response (ResponseEvent.interim (a :: rest))).start_time =
        ((a.start_time_ms.getD 0 : Int) : Rat) / 1000 ∧
      (parse_streaming_response (ResponseEvent.interim (a :: rest))).end_time =
        ((a.end_time_ms.getD 0 : Int) : Rat) / 1000) ∧
    ((parse_streaming_response (ResponseEvent.final (a :: rest))).alternatives =
        (a :: rest).map (fun x => x.text) ∧
      (parse_streaming_response (ResponseEvent.final (a :: rest))).confidence =
        a.confidence.getD 0 ∧
      (parse_streaming_response (ResponseEvent.final (a :: rest))).start_time =
        ((a.start_time_ms.getD 0 : Int) : Rat) / 1000 ∧
      (parse_streaming_response (ResponseEvent.final (a :: rest))).end_time =
        ((a.end_time_ms.getD 0 : Int) : Rat) / 1000) ∧
    ((parse_streaming_response
        (ResponseEvent.interim (⟨a.text, none, none, none⟩ :: rest))).confidence = 0 ∧
      (parse_streaming_response
        (ResponseEvent.interim (⟨a.text, none, none, none⟩ :: rest))).start_time = 0 ∧
      (parse_streaming_response
        (ResponseEvent.interim (⟨a.text, none, none, none⟩ :: rest))).end_time = 0) ∧
    ((parse_streaming_response ResponseEvent.classifierUpdate).alternatives = [] ∧
      process_response opts ResponseEvent.classifierUpdate = [] ∧
      process_response opts ResponseEvent.speakerAnalysis = [] ∧
      process_response opts ResponseEvent.conversationAnalysis = [] ∧
      process_response opts ResponseEvent.summarization = []) := by
  refine ⟨⟨?_, ?_, ?_, ?_⟩, ⟨?_, ?_, ?_, ?_⟩, ⟨?_, ?_, ?_⟩, ⟨?_, ?_, ?_, ?_, ?_⟩⟩ <;>
    simp [parse_streaming_response, process_response, ResponseEvent.whichOneof]

/-- Claim C9: a second `aclose` after a completed close is a no-op — it
leaves the state unchanged, performs no resource operations, and (the
model being total) does not raise. -/
theorem yandex_C9 (s : StreamState) :
    aclose (aclose s).1 = ((aclose s).1, []) := by
  by_cases h : s.closed <;> simp [aclose, h]

/-- Claim C10: every emitted interim or final transcript event carries the
session's configured language when one is set, and the literal `"ru-RU"`
when the configured language is unset (auto-detect mode), regardless of
what the backend detected. -/
theorem yandex_C10 (opts : STTOptions) (r : ResponseEvent) (e : SpeechEvent) (d : SpeechData)
    (he : e ∈ process_response opts r) (hd : d ∈ e.alternatives) :
    (∀ l, opts.language = some l → l ≠ "" → d.language = l) ∧
    (opts.language = none → d.language = "ru-RU") := by
  have hl := language_of_emitted opts r e d he hd
  constructor
  · intro l hsome hne
    rw [hl, hsome]
    simp [pyOrLanguage, hne]
  · intro hnone
    rw [hl, hnone]
    rfl

/-- Witness for claim C10: an interim transcript emitted under an
English-configured session carries language `"en-US"`. -/
theorem yandex_C10_witness :
    (⟨"hi", "en-US", ((0 : Int) : Rat) / 1000, ((0 : Int) : Rat) / 1000, 1⟩ :
      SpeechData).language = "en-US" := by
  have hproc : process_response demoOptsEn
      (ResponseEvent.interim [⟨"hi", some 1, some 0, some 0⟩]) =
      [⟨SpeechEventType.interimTranscript,
        [⟨"hi", "en-US", ((0 : Int) : Rat) / 1000, ((0 : Int) : Rat) / 1000, 1⟩]⟩] := rfl
  have h := yandex_C10 demoOptsEn (ResponseEvent.interim [⟨"hi", some 1, some 0, some 0⟩])
      ⟨SpeechEventType.interimTranscript,
        [⟨"hi", "en-US", ((0 : Int) : Rat) / 1000, ((0 : Int) : Rat) / 1000, 1⟩]⟩
      ⟨"hi", "en-US", ((0 : Int) : Rat) / 1000, ((0 : Int) : Rat) / 1000, 1⟩
      (by rw [hproc]; exact List.mem_singleton.mpr rfl)
      (List.mem_singleton.mpr rfl)
  exact h.1 "en-US" rfl (by decide)
